import Mathlib

/-!
Shallow embedding of the `multi-map-backend` relay service
(`src/main.rs`, `src/api/mod.rs`): a backend that accepts place-search
and route-computation requests and forwards them, reshaped, to an
upstream mapping provider.

Modelling conventions:

* The source stores latitude/longitude/distance as IEEE `f32`.  The
  handlers never compute with these values — they are deserialized and
  serialized back unchanged — so the numeric carrier is modelled by
  `Int`, a type with decidable equality; only pass-through identities
  are ever stated about it.
* JSON documents are modelled by the inductive `JsonVal`; objects are
  association lists (the claims are stated through the key-lookup
  function `JsonVal.getField`, so object ordering never matters).
* `reqwest` and the network are modelled by an explicit
  `UpstreamOutcome` argument: the result the single upstream HTTP call
  would produce (network failure of `send()`, parse failure of
  `.json()`, or a parsed value).  A handler run records the response,
  the list of upstream requests issued, and the `println!` log lines.
-/

namespace MultiMap

/-- Carrier for the source's `f32` fields (pass-through only, see above). -/
abbrev F32 := Int

/-- JSON values, as produced/consumed by `serde_json`. -/
inductive JsonVal where
  | null
  | bool (b : Bool)
  | num (n : F32)
  | str (s : String)
  | arr (elems : List JsonVal)
  | obj (fields : List (String × JsonVal))

/-- First value bound to key `k` in a JSON object (`none` on non-objects
and missing keys). -/
def JsonVal.getField : JsonVal → String → Option JsonVal
  | .obj fields, k => (fields.find? (fun kv => kv.1 == k)).map (fun kv => kv.2)
  | _, _ => none

/-- Key lookup along a path of nested objects. -/
def JsonVal.getPath : JsonVal → List String → Option JsonVal
  | j, [] => some j
  | j, k :: ks =>
    match j.getField k with
    | some v => JsonVal.getPath v ks
    | none => none

/-- `listIsPrefixOf pat l` is true when `pat` is an initial segment of `l`. -/
def listIsPrefixOf : List Char → List Char → Bool
  | [], _ => true
  | _ :: _, [] => false
  | a :: as, b :: bs => a == b && listIsPrefixOf as bs

/-- `containsSeq pat l`: does `pat` occur contiguously inside `l`? -/
def containsSeq (pat : List Char) : List Char → Bool
  | [] => pat.isEmpty
  | c :: rest => listIsPrefixOf pat (c :: rest) || containsSeq pat rest

/-- Embedding of Rust `str::contains` for a non-empty needle: does `s`
contain `pat` as a substring? -/
def strContainsSubstr (s pat : String) : Bool :=
  containsSeq pat.data s.data

/-! ### Constants of `src/api/mod.rs` -/

def CONTENT_TYPE : String := "Content-type"
def JSON_TYPE : String := "application/json"
def GOOGLE_FIELD_MASK_HEADER : String := "X-Goog-FieldMask"
def FIELD_MASK : String :=
  "places.id,places.displayName,places.formattedAddress,places.location"
def GOOGLE_API_KEY_HEADER : String := "X-Goog-Api-Key"
def GOOGLE_URL : String := "https://places.googleapis.com/v1/places:searchText"
def GOOGLE_ROUTES_URL : String :=
  "https://routes.googleapis.com/directions/v2:computeRoutes"
def MAX_RESULT_COUNT_KEY : String := "maxResultCount"
def MAX_RESULT_COUNT_VALUE : String := "10"
def ROUTE_FIELD_MASK : String :=
  "routes.duration,routes.distanceMeters,routes.polyline.encodedPolyline"

/-! ### Data model (structs of `src/api/mod.rs`, names kept) -/

/-- Rust `DisplayName`: `text`, optional `languageCode`. -/
structure DisplayName where
  text : String
  language_code : Option String
deriving DecidableEq, Repr

/-- Rust `Location`: latitude/longitude (`f32` in the source). -/
structure Location where
  latitude : F32
  longitude : F32
deriving DecidableEq, Repr

/-- Rust `GooglePlace` (serde renames: `formattedAddress`, `priceLevel`,
`displayName`). -/
structure GooglePlace where
  id : String
  formatted_address : String
  price_level : Option String
  display_name : DisplayName
  location : Location
deriving DecidableEq, Repr

/-- Rust `GooglePlacesReponse` (typo kept from the source):
`places: Option<Vec<GooglePlace>>`. -/
structure GooglePlacesReponse where
  places : Option (List GooglePlace)
deriving DecidableEq, Repr

/-- Rust `GooglePlacesRequest`: field `text_query` (no serde rename),
validated with `does_not_contain = "undefined"`. -/
structure GooglePlacesRequest where
  text_query : String
deriving DecidableEq, Repr

/-- Embedding of `validator`'s derived `validate()` for
`GooglePlacesRequest`: `Ok` (here `true`) exactly when `text_query`
does not contain `"undefined"`. -/
def GooglePlacesRequest.validate (p : GooglePlacesRequest) : Bool :=
  ! strContainsSubstr p.text_query "undefined"

/-- Rust `GetRouteRequestBody` (serde renames: `originLocation`,
`destinationLocation`, `departureTime`). -/
structure GetRouteRequestBody where
  origin_location : Location
  destination_location : Location
  departure_time : String
deriving DecidableEq, Repr

/-- Rust `Polyline` (serde rename: `encodedPolyline`). -/
structure Polyline where
  encoded_polyline : String
deriving DecidableEq, Repr

/-- Rust `RoutesResponse` (serde rename: `distanceMeters`). -/
structure RoutesResponse where
  distance_meters : F32
  duration : String
  polyline : Polyline
deriving DecidableEq, Repr

/-- Rust `GetRoutesReponse` (typo kept): `routes: Vec<RoutesResponse>`. -/
structure GetRoutesReponse where
  routes : List RoutesResponse
deriving DecidableEq, Repr

/-- `AppState` of `src/main.rs`; the `reqwest` client is modelled by the
explicit upstream-outcome argument of each handler. -/
structure AppState where
  google_key : String
deriving DecidableEq, Repr

/-! ### serde deserialization of the upstream JSON responses

Embeds the `#[derive(Deserialize)]` semantics used by the source:
required fields must be present and of the right shape; `Option` fields
default to `None` when absent and accept `null`; unknown fields are
ignored. -/

def parseString : JsonVal → Option String
  | .str s => some s
  | _ => none

def parseF32 : JsonVal → Option F32
  | .num n => some n
  | _ => none

/-- Required struct field: present and parsable, else error. -/
def parseReqField (parse : JsonVal → Option α)
    (fields : List (String × JsonVal)) (k : String) : Option α :=
  match fields.find? (fun kv => kv.1 == k) with
  | some kv => parse kv.2
  | none => none

/-- `Option` struct field: absent or `null` gives `none`; otherwise the
value must parse. -/
def parseOptField (parse : JsonVal → Option α)
    (fields : List (String × JsonVal)) (k : String) : Option (Option α) :=
  match fields.find? (fun kv => kv.1 == k) with
  | none => some none
  | some kv =>
    match kv.2 with
    | .null => some none
    | v => (parse v).map some

def parseDisplayName : JsonVal → Option DisplayName
  | .obj fs => do
    let text ← parseReqField parseString fs "text"
    let lc ← parseOptField parseString fs "languageCode"
    some ⟨text, lc⟩
  | _ => none

def parseLocation : JsonVal → Option Location
  | .obj fs => do
    let lat ← parseReqField parseF32 fs "latitude"
    let lng ← parseReqField parseF32 fs "longitude"
    some ⟨lat, lng⟩
  | _ => none

def parseGooglePlace : JsonVal → Option GooglePlace
  | .obj fs => do
    let id ← parseReqField parseString fs "id"
    let fa ← parseReqField parseString fs "formattedAddress"
    let pl ← parseOptField parseString fs "priceLevel"
    let dn ← parseReqField parseDisplayName fs "displayName"
    let loc ← parseReqField parseLocation fs "location"
    some ⟨id, fa, pl, dn, loc⟩
  | _ => none

/-- Deserialization of `GooglePlacesReponse`: the `places` field may be
absent or `null` (giving `none`), or an array of places. -/
def parseGooglePlacesReponse : JsonVal → Option GooglePlacesReponse
  | .obj fs =>
    match fs.find? (fun kv => kv.1 == "places") with
    | none => some ⟨none⟩
    | some kv =>
      match kv.2 with
      | .null => some ⟨none⟩
      | .arr xs => (xs.mapM parseGooglePlace).map (fun ps => ⟨some ps⟩)
      | _ => none
  | _ => none

def parsePolyline : JsonVal → Option Polyline
  | .obj fs => do
    let ep ← parseReqField parseString fs "encodedPolyline"
    some ⟨ep⟩
  | _ => none

def parseRoutesResponse : JsonVal → Option RoutesResponse
  | .obj fs => do
    let dm ← parseReqField parseF32 fs "distanceMeters"
    let du ← parseReqField parseString fs "duration"
    let pl ← parseReqField parsePolyline fs "polyline"
    some ⟨dm, du, pl⟩
  | _ => none

def parseGetRoutesReponse : JsonVal → Option GetRoutesReponse
  | .obj fs => do
    let rs ←
      match fs.find? (fun kv => kv.1 == "routes") with
      | some kv =>
        match kv.2 with
        | .arr xs => xs.mapM parseRoutesResponse
        | _ => none
      | none => none
    some ⟨rs⟩
  | _ => none

/-- axum `Query<GooglePlacesRequest>`: deserializes the URL query
string (an association list of parameters) into the struct; the field
name is `text_query` (the source declares no serde rename). -/
def parseGooglePlacesRequest (qp : List (String × String)) :
    Option GooglePlacesRequest :=
  match qp.find? (fun kv => kv.1 == "text_query") with
  | some kv => some ⟨kv.2⟩
  | none => none

/-! ### serde serialization of the client-facing responses -/

def serializeOptString : Option String → JsonVal
  | none => .null
  | some s => .str s

def serializeDisplayName (d : DisplayName) : JsonVal :=
  .obj [("text", .str d.text), ("languageCode", serializeOptString d.language_code)]

def serializeLocation (l : Location) : JsonVal :=
  .obj [("latitude", .num l.latitude), ("longitude", .num l.longitude)]

def serializeGooglePlace (p : GooglePlace) : JsonVal :=
  .obj [("id", .str p.id),
        ("formattedAddress", .str p.formatted_address),
        ("priceLevel", serializeOptString p.price_level),
        ("displayName", serializeDisplayName p.display_name),
        ("location", serializeLocation p.location)]

def serializeGooglePlacesReponse (r : GooglePlacesReponse) : JsonVal :=
  match r.places with
  | none => .obj [("places", .null)]
  | some ps => .obj [("places", .arr (ps.map serializeGooglePlace))]

def serializePolyline (p : Polyline) : JsonVal :=
  .obj [("encodedPolyline", .str p.encoded_polyline)]

def serializeRoutesResponse (r : RoutesResponse) : JsonVal :=
  .obj [("distanceMeters", .num r.distance_meters),
        ("duration", .str r.duration),
        ("polyline", serializePolyline r.polyline)]

def serializeGetRoutesReponse (r : GetRoutesReponse) : JsonVal :=
  .obj [("routes", .arr (r.routes.map serializeRoutesResponse))]

/-! ### Handler embeddings -/

/-- Outcome of the single upstream HTTP call a handler makes:
`send()` fails at the network level, the `.json::<α>()` parse of the
response fails, or a parsed value `α` is obtained. -/
inductive UpstreamOutcome (α : Type) where
  | netErr (cause : String)
  | parseErr (cause : String)
  | ok (parsed : α)
deriving DecidableEq, Repr

/-- An outbound HTTP request issued to the provider. -/
structure UpstreamRequest where
  url : String
  body : JsonVal
  headers : List (String × String)

/-- A handler's HTTP response: `Json(value)` (status 200) or a
`(StatusCode, &str)` pair. -/
inductive HandlerResponse (α : Type) where
  | jsonOk (body : α)
  | errText (status : Nat) (msg : String)
deriving DecidableEq, Repr

/-- Observable effects of one handler invocation: the response sent to
the caller, every upstream request issued, and the `println!` lines. -/
structure HandlerRun (α : Type) where
  response : HandlerResponse α
  upstreamCalls : List UpstreamRequest
  log : List String

/-- The upstream request `get_places` builds on valid input: POST to
`GOOGLE_URL`, body the two-entry map `{textQuery, maxResultCount}`,
headers field mask / content type / API key. -/
def placesUpstreamRequest (s : AppState) (p : GooglePlacesRequest) :
    UpstreamRequest where
  url := GOOGLE_URL
  body := .obj [("textQuery", .str p.text_query),
                (MAX_RESULT_COUNT_KEY, .str MAX_RESULT_COUNT_VALUE)]
  headers := [(GOOGLE_FIELD_MASK_HEADER, FIELD_MASK),
              (CONTENT_TYPE, JSON_TYPE),
              (GOOGLE_API_KEY_HEADER, s.google_key)]

/-- Embedding of `get_places` (`src/api/mod.rs`): validate, fail fast
with 400 on invalid input, otherwise issue the single upstream call and
map its outcome. -/
def get_places (s : AppState) (p : GooglePlacesRequest)
    (upstream : UpstreamOutcome GooglePlacesReponse) :
    HandlerRun GooglePlacesReponse :=
  if p.validate = false then
    { response := .errText 400 "Invalid request"
      upstreamCalls := []
      log := [] }
  else
    let req := placesUpstreamRequest s p
    match upstream with
    | .ok google_places =>
      { response := .jsonOk google_places
        upstreamCalls := [req]
        log := [] }
    | .parseErr e =>
      { response := .errText 500 "Something went wrong. Try again later"
        upstreamCalls := [req]
        log := ["Error parsing response from Google Places API: " ++ e] }
    | .netErr e =>
      { response := .errText 500 "Something went wrong. Try again later"
        upstreamCalls := [req]
        log := ["Error sending request to Google Places API: " ++ e] }

/-- The `json!` payload `get_routes` builds from the request body:
nested origin/destination location objects, the departure time, and the
fixed routing configuration. -/
def routesPayload (body : GetRouteRequestBody) : JsonVal :=
  .obj [("origin", .obj [("location", .obj [("latLng", .obj
          [("latitude", .num body.origin_location.latitude),
           ("longitude", .num body.origin_location.longitude)])])]),
        ("destination", .obj [("location", .obj [("latLng", .obj
          [("latitude", .num body.destination_location.latitude),
           ("longitude", .num body.destination_location.longitude)])])]),
        ("departureTime", .str body.departure_time),
        ("travelMode", .str "DRIVE"),
        ("routingPreference", .str "TRAFFIC_AWARE_OPTIMAL"),
        ("computeAlternativeRoutes", .bool true),
        ("routeModifiers", .obj
          [("avoidTolls", .bool false),
           ("avoidHighways", .bool false),
           ("avoidFerries", .bool false)]),
        ("languageCode", .str "en-US"),
        ("units", .str "METRIC")]

/-- The upstream request `get_routes` issues. -/
def routesUpstreamRequest (s : AppState) (body : GetRouteRequestBody) :
    UpstreamRequest where
  url := GOOGLE_ROUTES_URL
  body := routesPayload body
  headers := [(GOOGLE_FIELD_MASK_HEADER, ROUTE_FIELD_MASK),
              (CONTENT_TYPE, JSON_TYPE),
              (GOOGLE_API_KEY_HEADER, s.google_key)]

/-- Embedding of `get_routes` (`src/api/mod.rs`): log the body, build
the fixed payload, issue the single upstream call, map its outcome. -/
def get_routes (s : AppState) (body : GetRouteRequestBody)
    (upstream : UpstreamOutcome GetRoutesReponse) :
    HandlerRun GetRoutesReponse :=
  let bodyLog := "body"
  let req := routesUpstreamRequest s body
  match upstream with
  | .ok google_places =>
    { response := .jsonOk google_places
      upstreamCalls := [req]
      log := [bodyLog] }
  | .parseErr e =>
    { response := .errText 500 "Something went wrong. Try again later"
      upstreamCalls := [req]
      log := [bodyLog, "Error parsing response from Google Routes API: " ++ e] }
  | .netErr e =>
    { response := .errText 500 "Something went wrong. Try again later"
      upstreamCalls := [req]
      log := [bodyLog, "Error sending request to Google Routes API: " ++ e] }

/-- HTTP methods used by the router in `src/main.rs`. -/
inductive HttpMethod where
  | get
  | post
deriving DecidableEq, Repr

/-- The router of `src/main.rs`: route path paired with its method. -/
def router : List (String × HttpMethod) :=
  [("/health-check", .get), ("/places", .post), ("/routes", .post)]

/-! ### Theorems -/

/-- A query that does not contain `"undefined"` passes the derived
validation. -/
lemma validate_of_not_contains (p : GooglePlacesRequest)
    (h : strContainsSubstr p.text_query "undefined" = false) :
    p.validate = true := by
  unfold GooglePlacesRequest.validate
  rw [h]
  rfl

/-- Claim C1 as stated is false: with an empty text query the handler
does not return 400 and does make an upstream call — the derived
validator only checks `does_not_contain = "undefined"`, which the empty
string passes. -/
theorem C1_counterexample :
    ¬ ((get_places ⟨"k"⟩ ⟨""⟩ (.ok ⟨none⟩)).response
          = .errText 400 "Invalid request"
        ∧ (get_places ⟨"k"⟩ ⟨""⟩ (.ok ⟨none⟩)).upstreamCalls.length = 0) := by
  decide

/-- Claim C1 (amended): a `/places` request with an empty text query is
not rejected — it passes validation, so the handler issues exactly one
upstream call and never answers 400. -/
theorem C1_empty_query_not_rejected (s : AppState) (p : GooglePlacesRequest)
    (u : UpstreamOutcome GooglePlacesReponse) (h : p.text_query = "") :
    (get_places s p u).upstreamCalls.length = 1
    ∧ (get_places s p u).response ≠ .errText 400 "Invalid request" := by
  have hv : p.validate = true := by
    apply validate_of_not_contains
    rw [h]
    decide
  cases u <;> simp [get_places, hv]

/-- Witness for C1's amended theorem at a concrete empty-query input. -/
theorem C1_witness :
    (get_places ⟨"k"⟩ ⟨""⟩ (.netErr "connection refused")).upstreamCalls.length = 1
    ∧ (get_places ⟨"k"⟩ ⟨""⟩ (.netErr "connection refused")).response
        ≠ .errText 400 "Invalid request" :=
  C1_empty_query_not_rejected ⟨"k"⟩ ⟨""⟩ (.netErr "connection refused") rfl

/-- Claim C2 as stated is false: the deserialized field name is
`text_query` (the source declares no serde rename), so a request
carrying `textQuery` fails to deserialize. -/
theorem C2_counterexample :
    parseGooglePlacesRequest [("textQuery", "pizza")] = none := by
  rfl

/-- Claim C2 (amended): `/places` is routed as POST, and the handler
reads its text query from the URL query string under the field name
`text_query`; a query string carrying that parameter deserializes
successfully to the parameter's value. -/
theorem C2_text_query_field (qp : List (String × String)) (kv : String × String)
    (h : qp.find? (fun x => x.1 == "text_query") = some kv) :
    parseGooglePlacesRequest qp = some ⟨kv.2⟩
    ∧ ("/places", HttpMethod.post) ∈ router := by
  constructor
  · unfold parseGooglePlacesRequest
    rw [h]
  · decide

/-- Witness for C2's amended theorem at a concrete query string. -/
theorem C2_witness :
    parseGooglePlacesRequest [("text_query", "pizza")] = some ⟨"pizza"⟩
    ∧ ("/places", HttpMethod.post) ∈ router :=
  C2_text_query_field [("text_query", "pizza")] ("text_query", "pizza") rfl

/-- Claim C3: any text query containing `"undefined"` (in particular
the literal `"undefined"` itself) is rejected with 400 "Invalid
request" and no upstream call is made. -/
theorem C3_undefined_rejected (s : AppState) (p : GooglePlacesRequest)
    (u : UpstreamOutcome GooglePlacesReponse)
    (h : strContainsSubstr p.text_query "undefined" = true) :
    (get_places s p u).response = .errText 400 "Invalid request"
    ∧ (get_places s p u).upstreamCalls.length = 0 := by
  have hv : p.validate = false := by
    unfold GooglePlacesRequest.validate
    rw [h]
    rfl
  simp [get_places, hv]

/-- Witness for C3 at the literal query `"undefined"`. -/
theorem C3_witness :
    (get_places ⟨"k"⟩ ⟨"undefined"⟩ (.ok ⟨none⟩)).response
        = .errText 400 "Invalid request"
    ∧ (get_places ⟨"k"⟩ ⟨"undefined"⟩ (.ok ⟨none⟩)).upstreamCalls.length = 0 :=
  C3_undefined_rejected ⟨"k"⟩ ⟨"undefined"⟩ (.ok ⟨none⟩) (by decide)

/-- Claim C4: on a valid (non-empty, sentinel-free) query the handler
issues exactly one upstream POST to the text-search URL whose JSON
payload holds exactly the fields `textQuery` (the query) and
`maxResultCount` (`"10"`), with exactly the three headers: field mask
restricting to id/displayName/formattedAddress/location, JSON content
type, and the provider API key. -/
theorem C4_places_upstream (s : AppState) (p : GooglePlacesRequest)
    (u : UpstreamOutcome GooglePlacesReponse)
    (_hne : p.text_query ≠ "")
    (hs : strContainsSubstr p.text_query "undefined" = false) :
    ∃ req, (get_places s p u).upstreamCalls = [req]
      ∧ req.url = "https://places.googleapis.com/v1/places:searchText"
      ∧ req.body.getField "textQuery" = some (.str p.text_query)
      ∧ req.body.getField "maxResultCount" = some (.str "10")
      ∧ (∃ fields, req.body = .obj fields
          ∧ fields.map Prod.fst = ["textQuery", "maxResultCount"])
      ∧ req.headers
          = [("X-Goog-FieldMask",
              "places.id,places.displayName,places.formattedAddress,places.location"),
             ("Content-type", "application/json"),
             ("X-Goog-Api-Key", s.google_key)]
      ∧ req.headers.length = 3 := by
  have hv : p.validate = true := validate_of_not_contains p hs
  refine ⟨placesUpstreamRequest s p, ?_, rfl, rfl, rfl, ⟨_, rfl, rfl⟩, rfl, rfl⟩
  cases u <;> simp [get_places, hv]

/-- Witness for C4 at the concrete query `"pizza"`. -/
theorem C4_witness :
    ∃ req, (get_places ⟨"k"⟩ ⟨"pizza"⟩ (.ok ⟨none⟩)).upstreamCalls = [req]
      ∧ req.url = "https://places.googleapis.com/v1/places:searchText"
      ∧ req.body.getField "textQuery" = some (.str "pizza")
      ∧ req.body.getField "maxResultCount" = some (.str "10")
      ∧ (∃ fields, req.body = .obj fields
          ∧ fields.map Prod.fst = ["textQuery", "maxResultCount"])
      ∧ req.headers
          = [("X-Goog-FieldMask",
              "places.id,places.displayName,places.formattedAddress,places.location"),
             ("Content-type", "application/json"),
             ("X-Goog-Api-Key", "k")]
      ∧ req.headers.length = 3 :=
  C4_places_upstream ⟨"k"⟩ ⟨"pizza"⟩ (.ok ⟨none⟩) (by decide) (by decide)

/-- Claim C5: feeding the routes handler a well-formed upstream
response that parses to `r` yields exactly `r`'s routes back — the same
number of records, in the same order, each with distance, duration and
polyline unchanged. -/
theorem C5_routes_roundtrip (s : AppState) (body : GetRouteRequestBody)
    (j : JsonVal) (r : GetRoutesReponse)
    (_h : parseGetRoutesReponse j = some r) :
    (get_routes s body (.ok r)).response = .jsonOk r
    ∧ ∃ out, (get_routes s body (.ok r)).response = .jsonOk out
      ∧ out.routes.length = r.routes.length
      ∧ ∀ i (hi : i < r.routes.length) (ho : i < out.routes.length),
          out.routes.get ⟨i, ho⟩ = r.routes.get ⟨i, hi⟩ := by
  refine ⟨rfl, r, rfl, rfl, ?_⟩
  intro i hi ho
  rfl

/-- Witness for C5 on a concrete one-route upstream response. -/
theorem C5_witness :
    (get_routes ⟨"k"⟩ ⟨⟨1, 2⟩, ⟨3, 4⟩, "2023-10-15T15:01:23Z"⟩
        (.ok ⟨[⟨5, "10s", ⟨"abc"⟩⟩]⟩)).response
      = .jsonOk ⟨[⟨5, "10s", ⟨"abc"⟩⟩]⟩ :=
  (C5_routes_roundtrip ⟨"k"⟩ ⟨⟨1, 2⟩, ⟨3, 4⟩, "2023-10-15T15:01:23Z"⟩
    (.obj [("routes", .arr [.obj [("distanceMeters", .num 5),
      ("duration", .str "10s"),
      ("polyline", .obj [("encodedPolyline", .str "abc")])]])])
    ⟨[⟨5, "10s", ⟨"abc"⟩⟩]⟩ rfl).1

/-- Claim C6: whatever the upstream outcome, the routes handler issues
exactly one upstream call, and its payload embeds the supplied origin
and destination as nested location objects and the supplied departure
time, with the fixed configuration: DRIVE, TRAFFIC_AWARE_OPTIMAL,
alternative routes enabled, toll/highway/ferry avoidance disabled,
language en-US, metric units. -/
theorem C6_routes_payload (s : AppState) (body : GetRouteRequestBody)
    (u : UpstreamOutcome GetRoutesReponse) :
    (get_routes s body u).upstreamCalls.length = 1
    ∧ ∀ req ∈ (get_routes s body u).upstreamCalls,
        req.url = "https://routes.googleapis.com/directions/v2:computeRoutes"
        ∧ req.body.getPath ["origin", "location", "latLng", "latitude"]
            = some (.num body.origin_location.latitude)
        ∧ req.body.getPath ["origin", "location", "latLng", "longitude"]
            = some (.num body.origin_location.longitude)
        ∧ req.body.getPath ["destination", "location", "latLng", "latitude"]
            = some (.num body.destination_location.latitude)
        ∧ req.body.getPath ["destination", "location", "latLng", "longitude"]
            = some (.num body.destination_location.longitude)
        ∧ req.body.getField "departureTime" = some (.str body.departure_time)
        ∧ req.body.getField "travelMode" = some (.str "DRIVE")
        ∧ req.body.getField "routingPreference"
            = some (.str "TRAFFIC_AWARE_OPTIMAL")
        ∧ req.body.getField "computeAlternativeRoutes" = some (.bool true)
        ∧ req.body.getPath ["routeModifiers", "avoidTolls"] = some (.bool false)
        ∧ req.body.getPath ["routeModifiers", "avoidHighways"] = some (.bool false)
        ∧ req.body.getPath ["routeModifiers", "avoidFerries"] = some (.bool false)
        ∧ req.body.getField "languageCode" = some (.str "en-US")
        ∧ req.body.getField "units" = some (.str "METRIC") := by
  have hcalls : (get_routes s body u).upstreamCalls
      = [routesUpstreamRequest s body] := by
    cases u <;> rfl
  rw [hcalls]
  refine ⟨rfl, ?_⟩
  intro req hreq
  rw [List.mem_singleton] at hreq
  subst hreq
  exact ⟨rfl, rfl, rfl, rfl, rfl, rfl, rfl, rfl, rfl, rfl, rfl, rfl, rfl, rfl⟩

/-- Witness for C6 at a concrete request body, observing the fixed
travel mode of the payload of the one upstream call. -/
theorem C6_witness :
    (routesUpstreamRequest ⟨"k"⟩ ⟨⟨1, 2⟩, ⟨3, 4⟩, "t"⟩).body.getField "travelMode"
      = some (.str "DRIVE") :=
  ((C6_routes_payload ⟨"k"⟩ ⟨⟨1, 2⟩, ⟨3, 4⟩, "t"⟩ (.ok ⟨[]⟩)).2
    (routesUpstreamRequest ⟨"k"⟩ ⟨⟨1, 2⟩, ⟨3, 4⟩, "t"⟩)
    (List.mem_singleton.mpr rfl)).2.2.2.2.2.2.1

/-- Claim C7: an upstream places response whose `places` field is
absent or `null` deserializes to `places = none`, the handler answers
it with a success (`Json`) response, and the serialized reply is
`{places: null}` — not an error. -/
theorem C7_null_places_ok (s : AppState) (p : GooglePlacesRequest)
    (fs : List (String × JsonVal)) (r : GooglePlacesReponse)
    (hv : p.validate = true)
    (hf : fs.find? (fun kv => kv.1 == "places") = none
        ∨ ∃ k, fs.find? (fun kv => kv.1 == "places") = some (k, .null))
    (hp : parseGooglePlacesReponse (.obj fs) = some r) :
    r.places = none
    ∧ (get_places s p (.ok r)).response = .jsonOk r
    ∧ serializeGooglePlacesReponse r = .obj [("places", .null)] := by
  have hr : r = ⟨none⟩ := by
    rcases hf with hf | ⟨k, hf⟩ <;>
      simp only [parseGooglePlacesReponse, hf, Option.some.injEq] at hp <;>
      exact hp.symm
  subst hr
  refine ⟨rfl, ?_, rfl⟩
  simp [get_places, hv]

/-- Witness for C7 on an upstream response with no `places` key. -/
theorem C7_witness :
    (⟨none⟩ : GooglePlacesReponse).places = none
    ∧ (get_places ⟨"k"⟩ ⟨"pizza"⟩ (.ok ⟨none⟩)).response = .jsonOk ⟨none⟩
    ∧ serializeGooglePlacesReponse ⟨none⟩ = .obj [("places", .null)] :=
  C7_null_places_ok ⟨"k"⟩ ⟨"pizza"⟩ [] ⟨none⟩ (by decide) (Or.inl rfl) rfl

/-- Claim C8: on an upstream network failure or a response-parse
failure, both handlers answer 500 with the one fixed generic message
(independent of the failure's cause), write the cause to the log, and
issue exactly one upstream call (no retry). -/
theorem C8_upstream_failure_500 (s : AppState) (p : GooglePlacesRequest)
    (body : GetRouteRequestBody) (e : String)
    (hv : p.validate = true) :
    ((get_places s p (.netErr e)).response
        = .errText 500 "Something went wrong. Try again later"
      ∧ (get_places s p (.netErr e)).upstreamCalls.length = 1
      ∧ (get_places s p (.netErr e)).log
          = ["Error sending request to Google Places API: " ++ e])
    ∧ ((get_places s p (.parseErr e)).response
        = .errText 500 "Something went wrong. Try again later"
      ∧ (get_places s p (.parseErr e)).upstreamCalls.length = 1
      ∧ (get_places s p (.parseErr e)).log
          = ["Error parsing response from Google Places API: " ++ e])
    ∧ ((get_routes s body (.netErr e)).response
        = .errText 500 "Something went wrong. Try again later"
      ∧ (get_routes s body (.netErr e)).upstreamCalls.length = 1
      ∧ (get_routes s body (.netErr e)).log
          = ["body", "Error sending request to Google Routes API: " ++ e])
    ∧ ((get_routes s body (.parseErr e)).response
        = .errText 500 "Something went wrong. Try again later"
      ∧ (get_routes s body (.parseErr e)).upstreamCalls.length = 1
      ∧ (get_routes s body (.parseErr e)).log
          = ["body", "Error parsing response from Google Routes API: " ++ e]) := by
  refine ⟨⟨?_, ?_, ?_⟩, ⟨?_, ?_, ?_⟩, ⟨rfl, rfl, rfl⟩, ⟨rfl, rfl, rfl⟩⟩ <;>
    simp [get_places, hv]

/-- Witness for C8: a concrete connection-refused failure on
`/places`. -/
theorem C8_witness :
    (get_places ⟨"k"⟩ ⟨"pizza"⟩ (.netErr "connection refused")).response
      = .errText 500 "Something went wrong. Try again later" :=
  (C8_upstream_failure_500 ⟨"k"⟩ ⟨"pizza"⟩ ⟨⟨1, 2⟩, ⟨3, 4⟩, "t"⟩
    "connection refused" (by decide)).1.1

/-- Claim C9: a place record whose JSON carries no `priceLevel` key
deserializes with `price_level = none`; the handler's mapped output
carries that record unchanged (`none` preserved, no default
substituted), and its serialization emits `null` for `priceLevel`. -/
theorem C9_price_level_absent (s : AppState) (p : GooglePlacesRequest)
    (j : JsonVal) (gp : GooglePlace)
    (hv : p.validate = true)
    (hj : j.getField "priceLevel" = none)
    (hp : parseGooglePlace j = some gp) :
    gp.price_level = none
    ∧ (get_places s p (.ok ⟨some [gp]⟩)).response = .jsonOk ⟨some [gp]⟩
    ∧ (serializeGooglePlace gp).getField "priceLevel" = some .null := by
  obtain ⟨fs, rfl⟩ : ∃ fs, j = .obj fs := by
    cases j <;> first | exact ⟨_, rfl⟩ | exact Option.noConfusion hp
  have hfind : fs.find? (fun kv => kv.1 == "priceLevel") = none := by
    have : (fs.find? (fun kv => kv.1 == "priceLevel")).map
        (fun kv => kv.2) = none := hj
    exact Option.map_eq_none'.mp this
  have hopt : parseOptField parseString fs "priceLevel" = some none := by
    unfold parseOptField
    rw [hfind]
  have hpl : gp.price_level = none := by
    simp only [parseGooglePlace, hopt, Option.bind_eq_some, Option.some.injEq,
      Option.pure_def, Option.bind_eq_bind] at hp
    obtain ⟨id, _, fa, _, pl, hpl2, dn, _, loc, _, hgp⟩ := hp
    rw [← hgp]
    exact hpl2.symm
  have hser : (serializeGooglePlace gp).getField "priceLevel"
      = some (serializeOptString gp.price_level) := rfl
  refine ⟨hpl, ?_, ?_⟩
  · simp [get_places, hv]
  · rw [hser, hpl]
    rfl

/-- Witness for C9 on a concrete place record without `priceLevel`. -/
theorem C9_witness :
    (⟨"id1", "addr", none, ⟨"Name", none⟩, ⟨1, 2⟩⟩ : GooglePlace).price_level = none
    ∧ (get_places ⟨"k"⟩ ⟨"pizza"⟩
        (.ok ⟨some [⟨"id1", "addr", none, ⟨"Name", none⟩, ⟨1, 2⟩⟩]⟩)).response
      = .jsonOk ⟨some [⟨"id1", "addr", none, ⟨"Name", none⟩, ⟨1, 2⟩⟩]⟩
    ∧ (serializeGooglePlace ⟨"id1", "addr", none, ⟨"Name", none⟩, ⟨1, 2⟩⟩).getField
        "priceLevel" = some .null :=
  C9_price_level_absent ⟨"k"⟩ ⟨"pizza"⟩
    (.obj [("id", .str "id1"), ("formattedAddress", .str "addr"),
      ("displayName", .obj [("text", .str "Name")]),
      ("location", .obj [("latitude", .num 1), ("longitude", .num 2)])])
    ⟨"id1", "addr", none, ⟨"Name", none⟩, ⟨1, 2⟩⟩ (by decide) rfl rfl

/-- Claim C10: both handlers are deterministic — equal client input,
API key and upstream outcome give identical handler responses. -/
theorem C10_deterministic (s₁ s₂ : AppState) (p₁ p₂ : GooglePlacesRequest)
    (b₁ b₂ : GetRouteRequestBody)
    (u₁ u₂ : UpstreamOutcome GooglePlacesReponse)
    (v₁ v₂ : UpstreamOutcome GetRoutesReponse)
    (hs : s₁ = s₂) (hp : p₁ = p₂) (hb : b₁ = b₂) (hu : u₁ = u₂) (hw : v₁ = v₂) :
    (get_places s₁ p₁ u₁).response = (get_places s₂ p₂ u₂).response
    ∧ (get_routes s₁ b₁ v₁).response = (get_routes s₂ b₂ v₂).response := by
  subst hs hp hb hu hw
  exact ⟨rfl, rfl⟩

/-- Witness for C10 at concrete equal inputs. -/
theorem C10_witness :
    (get_places ⟨"k"⟩ ⟨"pizza"⟩ (.ok ⟨none⟩)).response
        = (get_places ⟨"k"⟩ ⟨"pizza"⟩ (.ok ⟨none⟩)).response
    ∧ (get_routes ⟨"k"⟩ ⟨⟨1, 2⟩, ⟨3, 4⟩, "t"⟩ (.ok ⟨[]⟩)).response
        = (get_routes ⟨"k"⟩ ⟨⟨1, 2⟩, ⟨3, 4⟩, "t"⟩ (.ok ⟨[]⟩)).response :=
  C10_deterministic ⟨"k"⟩ ⟨"k"⟩ ⟨"pizza"⟩ ⟨"pizza"⟩
    ⟨⟨1, 2⟩, ⟨3, 4⟩, "t"⟩ ⟨⟨1, 2⟩, ⟨3, 4⟩, "t"⟩
    (.ok ⟨none⟩) (.ok ⟨none⟩) (.ok ⟨[]⟩) (.ok ⟨[]⟩) rfl rfl rfl rfl rfl

end MultiMap
